import Mathlib

/-!
Verification of the MatLock repository (src/MatLock.go), a minimal
channel-based mutex for Go.

The Go type `MatLock` has two fields: `locked bool` and
`wait chan struct{}` created with `make(chan struct{}, 1)`.  Since the
channel carries only unit values, its entire observable state is the
number of buffered signals, so we embed it as a natural number `wait`
together with the constant capacity `waitCap = 1`.

`Lock` is a loop: if `!q.locked` it sets `locked = true` and returns,
otherwise it executes the blocking receive `<-q.wait` and loops.  In a
single-threaded execution no other goroutine mutates the state, so the
receive succeeds exactly while `wait > 0` (consuming one signal) and
blocks forever once `wait = 0`.  We embed `Lock` as a function to an
outcome type whose constructors are `acquired` (the function returned),
`blocked` (the goroutine is suspended forever on the channel receive)
and `panicked` (a Go panic; `Lock` never produces it, which is itself a
claim to prove).  A separate multi-goroutine small-step semantics is
given further below for the concurrency claims.

`Unlock` panics when `!q.locked`, otherwise sets `locked = false` and
performs a non-blocking send, `select { case q.wait <- struct{}{}:
default: }`, embedded as `trySend`.
-/

structure MatLock where
  locked : Bool
  wait : Nat
deriving DecidableEq, Repr

/-- Capacity of the Go channel `wait`, from `make(chan struct{}, 1)`. -/
def waitCap : Nat := 1

/-- The constructor `func NewQutex() *MatLock`: `locked: false`, `wait: make(chan struct{}, 1)`
(a freshly made buffered channel holds no values). -/
def NewQutex : MatLock :=
  { locked := false, wait := 0 }

/-- The non-blocking send `select { case q.wait <- struct{}{}: default: }`:
if the buffered channel has free capacity the value is enqueued, otherwise
the `default` branch drops it. -/
def trySend (s : MatLock) : MatLock :=
  if s.wait < waitCap then { s with wait := s.wait + 1 } else s

/-- Outcome of running `Lock` in a single-threaded execution. -/
inductive LockOutcome where
  | acquired (s : MatLock)
  | blocked (s : MatLock)
  | panicked (msg : String) (s : MatLock)
deriving DecidableEq, Repr

/-- Outcome of running `Unlock`. -/
inductive UnlockOutcome where
  | ok (s : MatLock)
  | panicked (msg : String) (s : MatLock)
deriving DecidableEq, Repr

/-- The body of `Lock`'s `for` loop, single-threaded semantics, on the
state `(locked, wait)`.  Each iteration: if `!q.locked`, set
`q.locked = true` and return (the channel is untouched); otherwise
execute the blocking receive `<-q.wait`.  With no other goroutine
running, the receive consumes one buffered signal when the channel is
non-empty — and the loop re-checks the flag — and suspends the
goroutine forever when the channel is empty. -/
def lockLoop : Bool → Nat → LockOutcome
  | false, w => LockOutcome.acquired { locked := true, wait := w }
  | true, 0 => LockOutcome.blocked { locked := true, wait := 0 }
  | true, w + 1 => lockLoop true w

/-- The function `func (q *MatLock) Lock()`, single-threaded semantics: run the loop
on the receiver's state. -/
def Lock (s : MatLock) : LockOutcome :=
  lockLoop s.locked s.wait

/-- The function `func (q *MatLock) Unlock()`: panic when `!q.locked`, otherwise
`q.locked = false` followed by the non-blocking send. -/
def Unlock (s : MatLock) : UnlockOutcome :=
  if !s.locked then
    UnlockOutcome.panicked "unlock of unlocked qutex" s
  else
    UnlockOutcome.ok (trySend { s with locked := false })

/-- The first iteration of `Lock`'s loop alone: `some` of the new state
when the fast path (`!q.locked`) acquires immediately, `none` when the
iteration would reach the blocking receive. -/
def lockFirstIter (s : MatLock) : Option MatLock :=
  if !s.locked then some { s with locked := true } else none

/-- The lock state carried by a `Lock` outcome. -/
def LockOutcome.state : LockOutcome → MatLock
  | LockOutcome.acquired s => s
  | LockOutcome.blocked s => s
  | LockOutcome.panicked _ s => s

/-- Whether a `Lock` outcome is a Go panic. -/
def LockOutcome.isPanic : LockOutcome → Bool
  | LockOutcome.panicked _ _ => true
  | _ => false

/-- The lock state carried by an `Unlock` outcome. -/
def UnlockOutcome.state : UnlockOutcome → MatLock
  | UnlockOutcome.ok s => s
  | UnlockOutcome.panicked _ s => s

/-- One uncontended `Lock(); Unlock()` cycle by a single goroutine:
`some` of the resulting state when the `Lock` returns and the `Unlock`
does not panic. -/
def uncontendedCycle (s : MatLock) : Option MatLock :=
  match Lock s with
  | LockOutcome.acquired s1 =>
    match Unlock s1 with
    | UnlockOutcome.ok s2 => some s2
    | UnlockOutcome.panicked _ _ => none
  | LockOutcome.blocked _ => none
  | LockOutcome.panicked _ _ => none

/-- Iterated uncontended `Lock(); Unlock()` cycles starting from `NewQutex()`. -/
def uncontendedCycles : Nat → Option MatLock
  | 0 => some NewQutex
  | n + 1 => (uncontendedCycles n).bind uncontendedCycle

/-!
Multi-goroutine small-step semantics.  Each goroutine runs the client
program `Lock(); <critical section>; Unlock()` against one shared
`MatLock`.  A program counter records where in that program — and where
inside `Lock`'s loop — the goroutine stands.  `stepRacy` interleaves at
the granularity of the Go statements: reading `q.locked` at the top of
`Lock`'s loop and the write `q.locked = true` are two separate steps,
exactly as in the source, where they are two statements with no
atomicity between them.  `stepAtomic` is the same machine except that
the check and the set happen in one indivisible step; it is the
granularity under which the spec's mutual-exclusion property is
provable.
-/

/-- Program counter of one goroutine running `Lock(); ...; Unlock()`.
`checking`: at the top of `Lock`'s loop, about to read `q.locked`;
`setting`: has observed `q.locked == false`, about to run
`q.locked = true; return`; `waiting`: executing the blocking receive
`<-q.wait`; `inCS`: `Lock` returned, the goroutine is inside the
critical section; `unlocked`: its `Unlock` returned; `panicked`: its
`Unlock` panicked. -/
inductive PC where
  | checking
  | setting
  | waiting
  | inCS
  | unlocked
  | panicked
deriving DecidableEq, Repr

/-- Shared lock state plus the program counter of every goroutine. -/
structure Config where
  locked : Bool
  wait : Nat
  pcs : List PC
deriving DecidableEq, Repr

/-- One statement-granular step of goroutine `i` (`none` when goroutine
`i` does not exist or cannot move: it finished, it panicked, or it is
blocked receiving on an empty channel). -/
def stepRacy (c : Config) (i : Nat) : Option Config :=
  match c.pcs[i]? with
  | none => none
  | some PC.checking =>
    if !c.locked then
      some { c with pcs := c.pcs.set i PC.setting }
    else
      some { c with pcs := c.pcs.set i PC.waiting }
  | some PC.setting =>
    some { c with locked := true, pcs := c.pcs.set i PC.inCS }
  | some PC.waiting =>
    if c.wait = 0 then none
    else some { c with wait := c.wait - 1, pcs := c.pcs.set i PC.checking }
  | some PC.inCS =>
    if !c.locked then
      some { c with pcs := c.pcs.set i PC.panicked }
    else
      some { locked := false
             wait := if c.wait < waitCap then c.wait + 1 else c.wait
             pcs := c.pcs.set i PC.unlocked }
  | some PC.unlocked => none
  | some PC.panicked => none

/-- Same machine, but `Lock`'s check of `q.locked` and the write
`q.locked = true` form one indivisible step (the `setting` counter is
never reached). -/
def stepAtomic (c : Config) (i : Nat) : Option Config :=
  match c.pcs[i]? with
  | none => none
  | some PC.checking =>
    if !c.locked then
      some { c with locked := true, pcs := c.pcs.set i PC.inCS }
    else
      some { c with pcs := c.pcs.set i PC.waiting }
  | some PC.setting => none
  | some PC.waiting =>
    if c.wait = 0 then none
    else some { c with wait := c.wait - 1, pcs := c.pcs.set i PC.checking }
  | some PC.inCS =>
    if !c.locked then
      some { c with pcs := c.pcs.set i PC.panicked }
    else
      some { locked := false
             wait := if c.wait < waitCap then c.wait + 1 else c.wait
             pcs := c.pcs.set i PC.unlocked }
  | some PC.unlocked => none
  | some PC.panicked => none

/-- Run a schedule: at each point the named goroutine takes one step. -/
def run (stp : Config → Nat → Option Config) : Config → List Nat → Option Config
  | c, [] => some c
  | c, i :: tr =>
    match stp c i with
    | none => none
    | some c2 => run stp c2 tr

/-- Initial configuration: `n` goroutines, each about to call `Lock()` on a fresh `MatLock`. -/
def initConfig (n : Nat) : Config :=
  { locked := false, wait := 0, pcs := List.replicate n PC.checking }

/-- Number of goroutines currently inside the critical section (past a
successful `Lock` and before the matching `Unlock`). -/
def holders (c : Config) : Nat :=
  (c.pcs.filter fun p => p == PC.inCS).length

/-- No goroutine is inside the critical section. -/
def noCS (l : List PC) : Prop :=
  ∀ i, (hi : i < l.length) → l[i] ≠ PC.inCS

/-- At most one goroutine is inside the critical section. -/
def uniqCS (l : List PC) : Prop :=
  ∀ i j, (hi : i < l.length) → (hj : j < l.length) →
    l[i] = PC.inCS → l[j] = PC.inCS → i = j

/-- Inductive mutual-exclusion invariant of the atomic-granularity
machine: when the flag is down nobody is in the critical section, and
never are two goroutines in it at once. -/
def MutexInv (c : Config) : Prop :=
  (c.locked = false → noCS c.pcs) ∧ uniqCS c.pcs

/-! Basic lemmas about the single-threaded semantics. -/

theorem lockLoop_false (w : Nat) :
    lockLoop false w = LockOutcome.acquired { locked := true, wait := w } := by
  cases w <;> rfl

theorem lockLoop_true (w : Nat) :
    lockLoop true w = LockOutcome.blocked { locked := true, wait := 0 } := by
  induction w with
  | zero => rfl
  | succ w ih => simpa [lockLoop] using ih

theorem Lock_of_free (s : MatLock) (h : s.locked = false) :
    Lock s = LockOutcome.acquired { s with locked := true } := by
  rw [Lock, h, lockLoop_false]

theorem Lock_of_held (s : MatLock) (h : s.locked = true) :
    Lock s = LockOutcome.blocked { locked := true, wait := 0 } := by
  rw [Lock, h, lockLoop_true]

theorem uncontendedCycles_pos (n : Nat) (h : 1 ≤ n) :
    uncontendedCycles n = some { locked := false, wait := 1 } := by
  induction n with
  | zero => omega
  | succ n ih =>
    rcases Nat.eq_zero_or_pos n with hn | hn
    · subst hn; rfl
    · rw [uncontendedCycles, ih hn]; rfl

/-! Claim theorems for the single-threaded behaviour. -/

/-- Claim C1: `Lock` returns only through the branch that observes
`locked == false` and sets it to `true`: whenever `Lock` returns
(outcome `acquired`), the state at the call had `locked = false`, the
state at return has `locked = true`, and the whole effect is exactly
that one false-to-true transition of the flag. -/
theorem lock_acquires_only_false_to_true (s t : MatLock)
    (h : Lock s = LockOutcome.acquired t) :
    s.locked = false ∧ t.locked = true ∧ t = { s with locked := true } := by
  cases hl : s.locked
  · rw [Lock_of_free s hl] at h
    cases h
    exact ⟨rfl, rfl, rfl⟩
  · rw [Lock_of_held s hl] at h
    cases h

/-- Witness for C1 at the freshly constructed lock. -/
theorem lock_acquires_only_false_to_true_witness :
    Lock NewQutex = LockOutcome.acquired { locked := true, wait := 0 } ∧
    (NewQutex.locked = false ∧
     ({ locked := true, wait := 0 } : MatLock).locked = true ∧
     ({ locked := true, wait := 0 } : MatLock) = { NewQutex with locked := true }) :=
  ⟨by decide,
   lock_acquires_only_false_to_true NewQutex { locked := true, wait := 0 } (by decide)⟩

/-- Claim C2: `Unlock` panics exactly when called with `locked = false`, the
panic leaves the state (flag and wake-channel occupancy) unchanged, and
in particular `Unlock` on a freshly constructed lock panics. -/
theorem unlock_panics_iff_unheld :
    (∀ s : MatLock, s.locked = false →
       Unlock s = UnlockOutcome.panicked "unlock of unlocked qutex" s) ∧
    (∀ (s t : MatLock) (m : String), Unlock s = UnlockOutcome.panicked m t →
       s.locked = false ∧ t = s ∧ t.locked = false ∧ t.wait = s.wait) ∧
    Unlock NewQutex = UnlockOutcome.panicked "unlock of unlocked qutex" NewQutex := by
  refine ⟨?_, ?_, by decide⟩
  · intro s h
    simp [Unlock, h]
  · intro s t m h
    cases hl : s.locked
    · simp only [Unlock, hl] at h
      cases h
      exact ⟨rfl, rfl, hl, rfl⟩
    · simp [Unlock, hl] at h

/-- Witness for C2 at the freshly constructed lock. -/
theorem unlock_panics_iff_unheld_witness :
    NewQutex.locked = false ∧
    Unlock NewQutex = UnlockOutcome.panicked "unlock of unlocked qutex" NewQutex :=
  ⟨rfl, unlock_panics_iff_unheld.1 NewQutex rfl⟩

/-- Claim C3: the wake channel holds at most one pending signal: the bound
`wait ≤ 1` is preserved by `Lock` and by `Unlock`, a release finding
the channel already full drops the excess signal, and any positive
number of uncontended release cycles leaves exactly one buffered
signal. -/
theorem wake_queue_bounded :
    (∀ s : MatLock, s.wait ≤ 1 →
       (Lock s).state.wait ≤ 1 ∧ (Unlock s).state.wait ≤ 1) ∧
    (∀ s : MatLock, s.locked = true → s.wait = 1 →
       Unlock s = UnlockOutcome.ok { locked := false, wait := 1 }) ∧
    (∀ n : Nat, 1 ≤ n →
       uncontendedCycles n = some { locked := false, wait := 1 }) := by
  refine ⟨?_, ?_, uncontendedCycles_pos⟩
  · intro s h
    constructor
    · cases hl : s.locked
      · rw [Lock_of_free s hl]
        exact h
      · rw [Lock_of_held s hl]
        exact Nat.zero_le 1
    · cases hl : s.locked
      · simp [Unlock, hl, UnlockOutcome.state, h]
      · simp only [Unlock, hl, Bool.not_true]
        simp only [Bool.false_eq_true, if_false, UnlockOutcome.state, trySend, waitCap]
        split
        · exact (by omega : s.wait + 1 ≤ 1)
        · exact h
  · intro s h1 h2
    cases s with
    | mk locked wait =>
      simp only at h1 h2
      subst h1
      subst h2
      decide

/-- Witness for C3 at a held lock whose channel is already full, and at
two uncontended cycles. -/
theorem wake_queue_bounded_witness :
    ((Lock { locked := true, wait := 1 }).state.wait ≤ 1 ∧
     (Unlock { locked := true, wait := 1 }).state.wait ≤ 1) ∧
    Unlock { locked := true, wait := 1 } = UnlockOutcome.ok { locked := false, wait := 1 } ∧
    uncontendedCycles 2 = some { locked := false, wait := 1 } :=
  ⟨wake_queue_bounded.1 { locked := true, wait := 1 } (by decide),
   wake_queue_bounded.2.1 { locked := true, wait := 1 } (by decide) (by decide),
   wake_queue_bounded.2.2 2 (by decide)⟩

/-- Claim C4: when called on a held lock, `Unlock` clears the flag and then
performs exactly one non-blocking send: an empty channel receives the
signal, a full channel drops it; being a total function of the state,
`Unlock` returns in every case (it never blocks). -/
theorem unlock_clears_then_try_sends (s : MatLock) (h : s.locked = true) :
    Unlock s = UnlockOutcome.ok (trySend { locked := false, wait := s.wait }) ∧
    (s.wait = 0 → Unlock s = UnlockOutcome.ok { locked := false, wait := 1 }) ∧
    (1 ≤ s.wait → Unlock s = UnlockOutcome.ok { locked := false, wait := s.wait }) := by
  refine ⟨by simp [Unlock, h], ?_, ?_⟩
  · intro hw
    simp [Unlock, h, trySend, waitCap, hw]
  · intro hw
    simp only [Unlock, h, Bool.not_true, Bool.false_eq_true, if_false, trySend, waitCap]
    split
    · omega
    · rfl

/-- Witness for C4 at a held lock with an empty channel. -/
theorem unlock_clears_then_try_sends_witness :
    Unlock { locked := true, wait := 0 } =
      UnlockOutcome.ok (trySend { locked := false, wait := 0 }) ∧
    Unlock { locked := true, wait := 0 } = UnlockOutcome.ok { locked := false, wait := 1 } :=
  ⟨(unlock_clears_then_try_sends { locked := true, wait := 0 } (by decide)).1,
   (unlock_clears_then_try_sends { locked := true, wait := 0 } (by decide)).2.1 (by decide)⟩

/-- Claim C5: `Lock` is exactly the check-then-wait loop: with the flag free
it sets the flag and returns at once; with the flag held it blocks on
the channel receive, and a received signal is not a grant — the loop
consumes the buffered signal, re-checks the flag, and (single-threaded)
ends blocked rather than acquiring. -/
theorem lock_check_then_wait_loop :
    (∀ s : MatLock, s.locked = false →
       Lock s = LockOutcome.acquired { s with locked := true }) ∧
    (∀ s : MatLock, s.locked = true →
       Lock s = LockOutcome.blocked { locked := true, wait := 0 }) ∧
    Lock { locked := true, wait := 1 } = LockOutcome.blocked { locked := true, wait := 0 } :=
  ⟨Lock_of_free, Lock_of_held, by decide⟩

/-- Witness for C5 at a free lock and at a held lock with one buffered
signal. -/
theorem lock_check_then_wait_loop_witness :
    Lock NewQutex = LockOutcome.acquired { NewQutex with locked := true } ∧
    Lock { locked := true, wait := 1 } = LockOutcome.blocked { locked := true, wait := 0 } :=
  ⟨lock_check_then_wait_loop.1 NewQutex rfl,
   lock_check_then_wait_loop.2.1 { locked := true, wait := 1 } rfl⟩

/-- Claim C6: the constructor returns a lock in the Free state: flag down and
an empty wake channel of capacity one. -/
theorem new_qutex_free_state :
    NewQutex = { locked := false, wait := 0 } ∧ waitCap = 1 :=
  ⟨rfl, rfl⟩

/-- Claim C7: the lock is reusable: from a fresh lock, `Lock(); Unlock();
Lock()` succeeds with both acquisitions on the first loop iteration and
the release without fault, ending held; and after any number of
uncontended cycles the next `Lock` still acquires on its first
iteration. -/
theorem lock_reusable :
    (Lock NewQutex = LockOutcome.acquired { locked := true, wait := 0 } ∧
     lockFirstIter NewQutex = some { locked := true, wait := 0 } ∧
     Unlock { locked := true, wait := 0 } = UnlockOutcome.ok { locked := false, wait := 1 } ∧
     Lock { locked := false, wait := 1 } = LockOutcome.acquired { locked := true, wait := 1 } ∧
     lockFirstIter { locked := false, wait := 1 } = some { locked := true, wait := 1 } ∧
     ({ locked := true, wait := 1 } : MatLock).locked = true) ∧
    (∀ n : Nat, ∃ s t : MatLock, uncontendedCycles n = some s ∧
       Lock s = LockOutcome.acquired t ∧ lockFirstIter s = some t ∧ t.locked = true) := by
  refine ⟨by decide, ?_⟩
  intro n
  rcases Nat.eq_zero_or_pos n with hn | hn
  · subst hn
    exact ⟨NewQutex, { locked := true, wait := 0 }, by decide, by decide, by decide, rfl⟩
  · refine ⟨{ locked := false, wait := 1 }, { locked := true, wait := 1 },
      uncontendedCycles_pos n hn, by decide, by decide, rfl⟩

/-- Claim C8: `Lock` has no error branch: for every state its outcome is
either an immediate acquisition with the flag set or a block on the
channel receive — never a panic. -/
theorem lock_never_fails (s : MatLock) :
    (Lock s = LockOutcome.acquired { s with locked := true } ∨
     Lock s = LockOutcome.blocked { locked := true, wait := 0 }) ∧
    (Lock s).isPanic = false := by
  cases hl : s.locked
  · rw [Lock_of_free s hl]
    exact ⟨Or.inl rfl, rfl⟩
  · rw [Lock_of_held s hl]
    exact ⟨Or.inr rfl, rfl⟩

/-- Witness for C8 at the freshly constructed lock. -/
theorem lock_never_fails_witness :
    (Lock NewQutex = LockOutcome.acquired { NewQutex with locked := true } ∨
     Lock NewQutex = LockOutcome.blocked { locked := true, wait := 0 }) ∧
    (Lock NewQutex).isPanic = false :=
  lock_never_fails NewQutex

/-- Claim C10: the fast path of `Lock` mutates only the flag: with
`locked = false` it returns with the channel occupancy exactly as it
found it; hence the signal left by an uncontended `Unlock` is still
buffered (a stale pending wake) after the next uncontended `Lock`. -/
theorem lock_fast_path_leaves_channel (s : MatLock) (h : s.locked = false) :
    Lock s = LockOutcome.acquired { locked := true, wait := s.wait } ∧
    (Lock s).state.wait = s.wait := by
  rw [Lock_of_free s h]
  exact ⟨rfl, rfl⟩

/-- Witness for C10: the fresh lock, and the stale signal surviving the
sequence `Lock(); Unlock(); Lock()`. -/
theorem lock_fast_path_leaves_channel_witness :
    (Lock { locked := false, wait := 1 } =
       LockOutcome.acquired { locked := true, wait := 1 } ∧
     (Lock { locked := false, wait := 1 }).state.wait = 1) ∧
    Lock NewQutex = LockOutcome.acquired { locked := true, wait := 0 } ∧
    Unlock { locked := true, wait := 0 } = UnlockOutcome.ok { locked := false, wait := 1 } :=
  ⟨lock_fast_path_leaves_channel { locked := false, wait := 1 } (by decide),
   by decide, by decide⟩

/-! Lemmas for the mutual-exclusion invariant of the atomic-granularity
machine. -/

theorem noCS_set {l : List PC} {k : Nat} {p : PC} (h : noCS l) (hp : p ≠ PC.inCS) :
    noCS (l.set k p) := by
  intro i hi hcs
  rw [List.getElem_set] at hcs
  split at hcs
  · exact hp hcs
  · exact h i (by simpa using hi) hcs

theorem uniqCS_set_nonCS {l : List PC} {k : Nat} {p : PC} (h : uniqCS l)
    (hp : p ≠ PC.inCS) : uniqCS (l.set k p) := by
  intro i j hi hj hci hcj
  rw [List.getElem_set] at hci hcj
  split at hci
  · exact absurd hci hp
  · split at hcj
    · exact absurd hcj hp
    · exact h i j (by simpa using hi) (by simpa using hj) hci hcj

theorem uniqCS_of_noCS {l : List PC} (h : noCS l) : uniqCS l := by
  intro i j hi hj hci hcj
  exact absurd hci (h i hi)

theorem uniqCS_set_inCS {l : List PC} {k : Nat} (h : noCS l) :
    uniqCS (l.set k PC.inCS) := by
  intro i j hi hj hci hcj
  rw [List.getElem_set] at hci hcj
  split at hci
  · split at hcj
    · omega
    · exact absurd hcj (h j (by simpa using hj))
  · exact absurd hci (h i (by simpa using hi))

theorem noCS_set_of_uniq {l : List PC} {k : Nat} {p : PC} (hk : k < l.length)
    (hcs : l.get ⟨k, hk⟩ = PC.inCS) (h : uniqCS l) (hp : p ≠ PC.inCS) :
    noCS (l.set k p) := by
  intro i hi hci
  rw [List.getElem_set] at hci
  split at hci
  · exact hp hci
  · rename_i hne
    exact hne (h k i hk (by simpa using hi) (by simpa using hcs) hci)

theorem stepAtomic_preserves {c c2 : Config} {k : Nat}
    (h : stepAtomic c k = some c2) (hinv : MutexInv c) : MutexInv c2 := by
  obtain ⟨h1, h2⟩ := hinv
  unfold stepAtomic at h
  split at h
  · simp at h
  · split at h
    · rename_i hcond
      injection h with h
      subst h
      refine ⟨?_, uniqCS_set_inCS (h1 (by simpa using hcond))⟩
      intro hf
      simp at hf
    · rename_i hcond
      injection h with h
      subst h
      refine ⟨?_, uniqCS_set_nonCS h2 (by decide)⟩
      intro hf
      have hl : c.locked = true := by simpa using hcond
      have hf2 : c.locked = false := hf
      rw [hl] at hf2
      simp at hf2
  · simp at h
  · split at h
    · simp at h
    · injection h with h
      subst h
      refine ⟨?_, uniqCS_set_nonCS h2 (by decide)⟩
      intro hf
      exact noCS_set (h1 hf) (by decide)
  · rename_i hpc
    split at h
    · rename_i hcond
      injection h with h
      subst h
      refine ⟨?_, uniqCS_set_nonCS h2 (by decide)⟩
      intro hf
      exact noCS_set (h1 hf) (by decide)
    · injection h with h
      subst h
      refine ⟨?_, uniqCS_set_nonCS h2 (by decide)⟩
      intro _
      obtain ⟨hk, hcs⟩ := List.getElem?_eq_some_iff.mp hpc
      exact noCS_set_of_uniq hk (by simpa using hcs) h2 (by decide)
  · simp at h
  · simp at h

theorem run_preserves_inv (tr : List Nat) (c c2 : Config)
    (h : run stepAtomic c tr = some c2) (hinv : MutexInv c) : MutexInv c2 := by
  induction tr generalizing c with
  | nil =>
    simp only [run] at h
    injection h with h
    subst h
    exact hinv
  | cons i tr ih =>
    simp only [run] at h
    split at h
    · simp at h
    · rename_i c3 hstep
      exact ih c3 h (stepAtomic_preserves hstep hinv)

theorem initConfig_inv (n : Nat) : MutexInv (initConfig n) := by
  have hno : noCS (List.replicate n PC.checking) := by
    intro i hi hcs
    rw [List.getElem_replicate] at hcs
    exact PC.noConfusion hcs
  exact ⟨fun _ => hno, uniqCS_of_noCS hno⟩

/-- Claim C9 counterexample: the check of `q.locked` and the write
`q.locked = true` in `Lock` are distinct statements, so under the
schedule `[0, 1, 0, 1]` two goroutines both observe the flag down, both
set it, and both enter the critical section: a reachable instant with
two holders, refuting "at most one holder for all interleavings". -/
theorem lock_check_set_race :
    run stepRacy (initConfig 2) [0, 1, 0, 1] =
      some { locked := true, wait := 0, pcs := [PC.inCS, PC.inCS] } ∧
    holders { locked := true, wait := 0, pcs := [PC.inCS, PC.inCS] } = 2 := by
  decide

/-- Claim C9 (amended): when each `Lock` loop iteration's check-then-set of
the flag executes as one indivisible step, every schedule of any number
of goroutines keeps at most one goroutine inside the critical section
at any instant. -/
theorem mutual_exclusion_atomic (n : Nat) (tr : List Nat) (c : Config)
    (h : run stepAtomic (initConfig n) tr = some c) :
    ∀ i j, (hi : i < c.pcs.length) → (hj : j < c.pcs.length) →
      c.pcs[i] = PC.inCS → c.pcs[j] = PC.inCS → i = j :=
  (run_preserves_inv tr (initConfig n) c h (initConfig_inv n)).2

/-- Witness for the amended C9 at two goroutines and a one-step
schedule. -/
theorem mutual_exclusion_atomic_witness :
    run stepAtomic (initConfig 2) [0] =
      some { locked := true, wait := 0, pcs := [PC.inCS, PC.checking] } ∧ (0 : Nat) = 0 :=
  ⟨by decide,
   mutual_exclusion_atomic 2 [0] { locked := true, wait := 0, pcs := [PC.inCS, PC.checking] }
     (by decide) 0 0 (by decide) (by decide) (by decide) (by decide)⟩
